import Mathlib

/-! QtDataVisualization: item model mappings, bar data items and the Q3DBars accessors

A shallow embedding of

* `src/datavisualization/data/qitemmodelsurfacedataproxy.cpp`
* `src/datavisualization/data/qbardataitem.cpp`
* `src/datavisualization/engine/q3dbars.cpp`
* `examples/customproxy/variantbardatamapping.cpp`

The proxy is identified with its private object (`d_ptr`), the only place where it keeps
state.  `QString` is a Lean `String` (a default constructed `QString` compares equal to the
empty one and `isEmpty()` holds for it), `QStringList` is `List String`, `bool` is `Bool`.

Signals and slots.  The connections made with `QObject::connect` are kept in a table inside
the state; `emit` walks the table in connection order and delivers to every entry whose
sender and signal match (proxy and handler live in one thread, so delivery is direct and
happens inside the setter).  `SurfaceItemModelHandler` is defined in another translation
unit: what the proxy does to it is recorded as a trace of the calls it receives
(`handlerCalls`), nothing is assumed about what the handler does inside a call beyond the
class documentation ("Data is resolved asynchronously whenever the mapping or the model
changes"), i.e. a call does not write the mapping members before the setter returns.
-/

namespace QtDataVis

/-! ## Signals, slots and connections -/

/-- Address of a `QAbstractItemModel`; `0` is the null pointer. -/
abbrev ItemModelPtr := Nat

/-- The signals named in `connectItemModelHandler`. -/
inductive Signal where
  | itemModelChanged
  | rowRoleChanged
  | columnRoleChanged
  | valueRoleChanged
  | rowCategoriesChanged
  | columnCategoriesChanged
  | useModelCategoriesChanged
  | autoRowCategoriesChanged
  | autoColumnCategoriesChanged
  deriving DecidableEq, Repr

/-- The two objects that take part in the connections: `qptr()` and `m_itemModelHandler`. -/
inductive QObjectId where
  | proxy
  | handler
  deriving DecidableEq, Repr

/-- The target of a connection: the slot `AbstractItemModelHandler::handleMappingChanged`,
or a signal of the receiver (signal to signal connection). -/
inductive Method where
  | handleMappingChanged
  | signal (s : Signal)
  deriving DecidableEq, Repr

/-- One `QObject::connect(sender, signal, receiver, method)`. -/
structure Connection where
  sender : QObjectId
  signal : Signal
  receiver : QObjectId
  method : Method
  deriving DecidableEq, Repr

/-- The argument carried by a signal. -/
inductive SignalArg where
  | model (m : ItemModelPtr)
  | role (s : String)
  | categories (l : List String)
  | enable (b : Bool)
  deriving DecidableEq, Repr

/-- One emission of a signal. -/
structure Emission where
  sender : QObjectId
  signal : Signal
  arg : SignalArg
  deriving DecidableEq, Repr

/-- A call received by the item model handler. -/
inductive HandlerCall where
  | setItemModel (m : ItemModelPtr)
  | handleMappingChanged
  deriving DecidableEq, Repr

/-! ## QItemModelSurfaceDataProxyPrivate -/

/-- The members of `QItemModelSurfaceDataProxyPrivate` that the file reads and writes,
the connection table, and the two traces (calls received by `m_itemModelHandler`, signals
emitted). -/
structure QItemModelSurfaceDataProxyPrivate where
  m_rowRole : String
  m_columnRole : String
  m_valueRole : String
  m_rowCategories : List String
  m_columnCategories : List String
  m_useModelCategories : Bool
  m_autoRowCategories : Bool
  m_autoColumnCategories : Bool
  connections : List Connection
  handlerCalls : List HandlerCall
  emitted : List Emission
  deriving DecidableEq, Repr

namespace QItemModelSurfaceDataProxyPrivate

/-- The constructor `QItemModelSurfaceDataProxyPrivate(q)`: the three flags are set in the
initialiser list, the strings and lists are default constructed, a new handler is made. -/
def create : QItemModelSurfaceDataProxyPrivate :=
  { m_rowRole := ""
    m_columnRole := ""
    m_valueRole := ""
    m_rowCategories := []
    m_columnCategories := []
    m_useModelCategories := false
    m_autoRowCategories := true
    m_autoColumnCategories := true
    connections := []
    handlerCalls := []
    emitted := [] }

/-- The nine connections of `connectItemModelHandler`, in source order. -/
def itemModelHandlerConnections : List Connection :=
  [ ⟨.handler, .itemModelChanged, .proxy, .signal .itemModelChanged⟩,
    ⟨.proxy, .rowRoleChanged, .handler, .handleMappingChanged⟩,
    ⟨.proxy, .columnRoleChanged, .handler, .handleMappingChanged⟩,
    ⟨.proxy, .valueRoleChanged, .handler, .handleMappingChanged⟩,
    ⟨.proxy, .rowCategoriesChanged, .handler, .handleMappingChanged⟩,
    ⟨.proxy, .columnCategoriesChanged, .handler, .handleMappingChanged⟩,
    ⟨.proxy, .useModelCategoriesChanged, .handler, .handleMappingChanged⟩,
    ⟨.proxy, .autoRowCategoriesChanged, .handler, .handleMappingChanged⟩,
    ⟨.proxy, .autoColumnCategoriesChanged, .handler, .handleMappingChanged⟩ ]

/-- The method `connectItemModelHandler`: every `QObject::connect` adds one entry (Qt keeps
duplicates, the calls do not ask for `Qt::UniqueConnection`). -/
def connectItemModelHandler (d : QItemModelSurfaceDataProxyPrivate) :
    QItemModelSurfaceDataProxyPrivate :=
  { d with connections := d.connections ++ itemModelHandlerConnections }

/-- Delivery of one emission to one matching connection.  The slot of the handler is
recorded in the handler trace; a signal target is emitted by its receiver with the same
argument (recorded; the file makes no connection that starts at such a relayed signal). -/
def deliver (arg : SignalArg) (d : QItemModelSurfaceDataProxyPrivate) (c : Connection) :
    QItemModelSurfaceDataProxyPrivate :=
  match c.receiver, c.method with
  | .handler, .handleMappingChanged =>
      { d with handlerCalls := d.handlerCalls ++ [HandlerCall.handleMappingChanged] }
  | .proxy, .handleMappingChanged => d
  | r, .signal s => { d with emitted := d.emitted ++ [⟨r, s, arg⟩] }

/-- The statement `emit signal(arg)` executed by `sender`: the emission is recorded and
delivered to the matching connections in the order in which they were made. -/
def emitSignal (sender : QObjectId) (signal : Signal) (arg : SignalArg)
    (d : QItemModelSurfaceDataProxyPrivate) : QItemModelSurfaceDataProxyPrivate :=
  (d.connections.filter (fun c => c.sender = sender ∧ c.signal = signal)).foldl
    (deliver arg) { d with emitted := d.emitted ++ [⟨sender, signal, arg⟩] }

/-- Two states agree on the eight mapping members and on the connection table. -/
def SameMapping (a b : QItemModelSurfaceDataProxyPrivate) : Prop :=
  a.m_rowRole = b.m_rowRole ∧ a.m_columnRole = b.m_columnRole ∧ a.m_valueRole = b.m_valueRole ∧
  a.m_rowCategories = b.m_rowCategories ∧ a.m_columnCategories = b.m_columnCategories ∧
  a.m_useModelCategories = b.m_useModelCategories ∧
  a.m_autoRowCategories = b.m_autoRowCategories ∧
  a.m_autoColumnCategories = b.m_autoColumnCategories ∧ a.connections = b.connections

/-- The number of times the handler was asked to handle a mapping change. -/
def handleMappingChangedCount (d : QItemModelSurfaceDataProxyPrivate) : Nat :=
  d.handlerCalls.count HandlerCall.handleMappingChanged

end QItemModelSurfaceDataProxyPrivate

/-! ## QItemModelSurfaceDataProxy -/

namespace QItemModelSurfaceDataProxy

open QItemModelSurfaceDataProxyPrivate

/-- The call `dptr()->m_itemModelHandler->setItemModel(itemModel)`; the body belongs to the
handler and is recorded as a call. -/
def setItemModel (itemModel : ItemModelPtr) (d : QItemModelSurfaceDataProxyPrivate) :
    QItemModelSurfaceDataProxyPrivate :=
  { d with handlerCalls := d.handlerCalls ++ [HandlerCall.setItemModel itemModel] }

/-- Constructor `QItemModelSurfaceDataProxy(parent)`. -/
def ctor : QItemModelSurfaceDataProxyPrivate :=
  connectItemModelHandler create

/-- Constructor `QItemModelSurfaceDataProxy(itemModel, parent)`. -/
def ctorModel (itemModel : ItemModelPtr) : QItemModelSurfaceDataProxyPrivate :=
  connectItemModelHandler (setItemModel itemModel create)

/-- Constructor `QItemModelSurfaceDataProxy(itemModel, valueRole, parent)`. -/
def ctorModelValue (itemModel : ItemModelPtr) (valueRole : String) :
    QItemModelSurfaceDataProxyPrivate :=
  let d := setItemModel itemModel create
  let d := { d with m_valueRole := valueRole }
  let d := { d with m_useModelCategories := true }
  connectItemModelHandler d

/-- Constructor `QItemModelSurfaceDataProxy(itemModel, rowRole, columnRole, valueRole,
parent)`. -/
def ctorModelRoles (itemModel : ItemModelPtr) (rowRole columnRole valueRole : String) :
    QItemModelSurfaceDataProxyPrivate :=
  let d := setItemModel itemModel create
  let d := { d with m_rowRole := rowRole }
  let d := { d with m_columnRole := columnRole }
  let d := { d with m_valueRole := valueRole }
  connectItemModelHandler d

/-- Constructor `QItemModelSurfaceDataProxy(itemModel, rowRole, columnRole, valueRole,
rowCategories, columnCategories, parent)`. -/
def ctorModelRolesCategories (itemModel : ItemModelPtr) (rowRole columnRole valueRole : String)
    (rowCategories columnCategories : List String) : QItemModelSurfaceDataProxyPrivate :=
  let d := setItemModel itemModel create
  let d := { d with m_rowRole := rowRole }
  let d := { d with m_columnRole := columnRole }
  let d := { d with m_valueRole := valueRole }
  let d := { d with m_rowCategories := rowCategories }
  let d := { d with m_columnCategories := columnCategories }
  let d := { d with m_autoRowCategories := false }
  let d := { d with m_autoColumnCategories := false }
  connectItemModelHandler d

/-- The setter `setRowRole(role)`. -/
def setRowRole (role : String) (d : QItemModelSurfaceDataProxyPrivate) :
    QItemModelSurfaceDataProxyPrivate :=
  if d.m_rowRole ≠ role then
    emitSignal .proxy .rowRoleChanged (.role role) { d with m_rowRole := role }
  else d

/-- The getter `rowRole()`. -/
def rowRole (d : QItemModelSurfaceDataProxyPrivate) : String := d.m_rowRole

/-- The setter `setColumnRole(role)`. -/
def setColumnRole (role : String) (d : QItemModelSurfaceDataProxyPrivate) :
    QItemModelSurfaceDataProxyPrivate :=
  if d.m_columnRole ≠ role then
    emitSignal .proxy .columnRoleChanged (.role role) { d with m_columnRole := role }
  else d

/-- The getter `columnRole()`. -/
def columnRole (d : QItemModelSurfaceDataProxyPrivate) : String := d.m_columnRole

/-- The setter `setValueRole(role)`. -/
def setValueRole (role : String) (d : QItemModelSurfaceDataProxyPrivate) :
    QItemModelSurfaceDataProxyPrivate :=
  if d.m_valueRole ≠ role then
    emitSignal .proxy .valueRoleChanged (.role role) { d with m_valueRole := role }
  else d

/-- The getter `valueRole()`. -/
def valueRole (d : QItemModelSurfaceDataProxyPrivate) : String := d.m_valueRole

/-- The setter `setRowCategories(categories)`. -/
def setRowCategories (categories : List String) (d : QItemModelSurfaceDataProxyPrivate) :
    QItemModelSurfaceDataProxyPrivate :=
  if d.m_rowCategories ≠ categories then
    emitSignal .proxy .rowCategoriesChanged (.categories categories)
      { d with m_rowCategories := categories }
  else d

/-- The getter `rowCategories()`. -/
def rowCategories (d : QItemModelSurfaceDataProxyPrivate) : List String := d.m_rowCategories

/-- The setter `setColumnCategories(categories)`. -/
def setColumnCategories (categories : List String) (d : QItemModelSurfaceDataProxyPrivate) :
    QItemModelSurfaceDataProxyPrivate :=
  if d.m_columnCategories ≠ categories then
    emitSignal .proxy .columnCategoriesChanged (.categories categories)
      { d with m_columnCategories := categories }
  else d

/-- The getter `columnCategories()`. -/
def columnCategories (d : QItemModelSurfaceDataProxyPrivate) : List String :=
  d.m_columnCategories

/-- The setter `setUseModelCategories(enable)`. -/
def setUseModelCategories (enable : Bool) (d : QItemModelSurfaceDataProxyPrivate) :
    QItemModelSurfaceDataProxyPrivate :=
  if d.m_useModelCategories ≠ enable then
    emitSignal .proxy .useModelCategoriesChanged (.enable enable)
      { d with m_useModelCategories := enable }
  else d

/-- The getter `useModelCategories()`. -/
def useModelCategories (d : QItemModelSurfaceDataProxyPrivate) : Bool := d.m_useModelCategories

/-- The setter `setAutoRowCategories(enable)`. -/
def setAutoRowCategories (enable : Bool) (d : QItemModelSurfaceDataProxyPrivate) :
    QItemModelSurfaceDataProxyPrivate :=
  if d.m_autoRowCategories ≠ enable then
    emitSignal .proxy .autoRowCategoriesChanged (.enable enable)
      { d with m_autoRowCategories := enable }
  else d

/-- The getter `autoRowCategories()`. -/
def autoRowCategories (d : QItemModelSurfaceDataProxyPrivate) : Bool := d.m_autoRowCategories

/-- The setter `setAutoColumnCategories(enable)`. -/
def setAutoColumnCategories (enable : Bool) (d : QItemModelSurfaceDataProxyPrivate) :
    QItemModelSurfaceDataProxyPrivate :=
  if d.m_autoColumnCategories ≠ enable then
    emitSignal .proxy .autoColumnCategoriesChanged (.enable enable)
      { d with m_autoColumnCategories := enable }
  else d

/-- The getter `autoColumnCategories()`. -/
def autoColumnCategories (d : QItemModelSurfaceDataProxyPrivate) : Bool :=
  d.m_autoColumnCategories

/-- The method `remap(rowRole, columnRole, valueRole, rowCategories, columnCategories)`:
the five setters, one after the other. -/
def remap (rowRole columnRole valueRole : String) (rowCategories columnCategories : List String)
    (d : QItemModelSurfaceDataProxyPrivate) : QItemModelSurfaceDataProxyPrivate :=
  let d := setRowRole rowRole d
  let d := setColumnRole columnRole d
  let d := setValueRole valueRole d
  let d := setRowCategories rowCategories d
  setColumnCategories columnCategories d

/-- One call of one of the eight mapping setters, with its argument. -/
inductive MappingSetter where
  | setRowRole (role : String)
  | setColumnRole (role : String)
  | setValueRole (role : String)
  | setRowCategories (categories : List String)
  | setColumnCategories (categories : List String)
  | setUseModelCategories (enable : Bool)
  | setAutoRowCategories (enable : Bool)
  | setAutoColumnCategories (enable : Bool)
  deriving DecidableEq, Repr

/-- Execution of a setter call. -/
def MappingSetter.run : MappingSetter → QItemModelSurfaceDataProxyPrivate →
    QItemModelSurfaceDataProxyPrivate
  | .setRowRole role => QItemModelSurfaceDataProxy.setRowRole role
  | .setColumnRole role => QItemModelSurfaceDataProxy.setColumnRole role
  | .setValueRole role => QItemModelSurfaceDataProxy.setValueRole role
  | .setRowCategories categories => QItemModelSurfaceDataProxy.setRowCategories categories
  | .setColumnCategories categories => QItemModelSurfaceDataProxy.setColumnCategories categories
  | .setUseModelCategories enable => QItemModelSurfaceDataProxy.setUseModelCategories enable
  | .setAutoRowCategories enable => QItemModelSurfaceDataProxy.setAutoRowCategories enable
  | .setAutoColumnCategories enable => QItemModelSurfaceDataProxy.setAutoColumnCategories enable

/-- The argument of the setter call differs from what the matching getter returns. -/
def MappingSetter.differs : MappingSetter → QItemModelSurfaceDataProxyPrivate → Bool
  | .setRowRole role, d => decide (rowRole d ≠ role)
  | .setColumnRole role, d => decide (columnRole d ≠ role)
  | .setValueRole role, d => decide (valueRole d ≠ role)
  | .setRowCategories categories, d => decide (rowCategories d ≠ categories)
  | .setColumnCategories categories, d => decide (columnCategories d ≠ categories)
  | .setUseModelCategories enable, d => decide (useModelCategories d ≠ enable)
  | .setAutoRowCategories enable, d => decide (autoRowCategories d ≠ enable)
  | .setAutoColumnCategories enable, d => decide (autoColumnCategories d ≠ enable)

/-- A call of a public member that writes the proxy. -/
inductive Call where
  | setItemModel (itemModel : ItemModelPtr)
  | setter (s : MappingSetter)
  | remap (rowRole columnRole valueRole : String) (rowCategories columnCategories : List String)
  deriving DecidableEq, Repr

/-- Execution of a call. -/
def Call.run : Call → QItemModelSurfaceDataProxyPrivate → QItemModelSurfaceDataProxyPrivate
  | .setItemModel itemModel => QItemModelSurfaceDataProxy.setItemModel itemModel
  | .setter s => s.run
  | .remap rowRole columnRole valueRole rowCategories columnCategories =>
      QItemModelSurfaceDataProxy.remap rowRole columnRole valueRole rowCategories columnCategories

/-- The proxies a program can hold: built by one of the five constructors (the last
statement of each is `connectItemModelHandler()`), then written through public members;
nobody disconnects the signals of the proxy. -/
inductive Reachable : QItemModelSurfaceDataProxyPrivate → Prop where
  | ctor : Reachable ctor
  | ctorModel (itemModel : ItemModelPtr) : Reachable (ctorModel itemModel)
  | ctorModelValue (itemModel : ItemModelPtr) (valueRole : String) :
      Reachable (ctorModelValue itemModel valueRole)
  | ctorModelRoles (itemModel : ItemModelPtr) (rowRole columnRole valueRole : String) :
      Reachable (ctorModelRoles itemModel rowRole columnRole valueRole)
  | ctorModelRolesCategories (itemModel : ItemModelPtr) (rowRole columnRole valueRole : String)
      (rowCategories columnCategories : List String) :
      Reachable (ctorModelRolesCategories itemModel rowRole columnRole valueRole
        rowCategories columnCategories)
  | call (c : Call) (d : QItemModelSurfaceDataProxyPrivate) :
      Reachable d → Reachable (c.run d)

end QItemModelSurfaceDataProxy

/-! ## QStringList -/

namespace QStringList

/-- The loop of the Qt container member `QList<T>::indexOf(t, from)`: the nodes are visited
from the front, `i` is the position of the head of the remaining nodes, the first node equal
to `t` gives the result, `-1` is returned when the end is reached. -/
def indexOfLoop (t : String) : List String → Int → Int
  | [], _ => -1
  | x :: xs, i => if x = t then i else indexOfLoop t xs (i + 1)

/-- The call `list.indexOf(t)` (`from` has its default `0`).  A `QList` holds fewer than
`2 ^ 31` items, its size being an `int`, so the position fits the `int` result. -/
def indexOf (l : List String) (t : String) : Int := indexOfLoop t l 0

end QStringList

namespace QItemModelSurfaceDataProxy

/-- The method `rowCategoryIndex(category)`. -/
def rowCategoryIndex (category : String) (d : QItemModelSurfaceDataProxyPrivate) : Int :=
  QStringList.indexOf d.m_rowCategories category

/-- The method `columnCategoryIndex(category)`. -/
def columnCategoryIndex (category : String) (d : QItemModelSurfaceDataProxyPrivate) : Int :=
  QStringList.indexOf d.m_columnCategories category

end QItemModelSurfaceDataProxy

/-! ## QBarDataItem -/

/-- The C++ type `float` as its 32 bit pattern.  The file only stores and copies floats;
the literal `0.0f` is the pattern `0`. -/
structure CFloat where
  bits : Fin 4294967296
  deriving DecidableEq, Repr

/-- The literal `0.0f`. -/
def CFloat.zero : CFloat := ⟨0⟩

/-- The class `QBarDataItemPrivate`; the file gives it no member. -/
structure QBarDataItemPrivate where
  deriving DecidableEq, Repr

/-- The members of `QBarDataItem`; `d_ptr` is `none` for the null pointer. -/
structure QBarDataItem where
  d_ptr : Option QBarDataItemPrivate
  m_value : CFloat
  m_angle : CFloat
  deriving DecidableEq, Repr

namespace QBarDataItem

/-- Constructor `QBarDataItem()`. -/
def ctor : QBarDataItem :=
  { d_ptr := none, m_value := CFloat.zero, m_angle := CFloat.zero }

/-- Constructor `QBarDataItem(float value)`. -/
def ctorValue (value : CFloat) : QBarDataItem :=
  { d_ptr := none, m_value := value, m_angle := CFloat.zero }

/-- Constructor `QBarDataItem(float value, float angle)`. -/
def ctorValueAngle (value angle : CFloat) : QBarDataItem :=
  { d_ptr := none, m_value := value, m_angle := angle }

/-- Modelled from the spec: the inline accessor `value()` of the class header, which is not
among the sources; documented in `qbardataitem.cpp` as returning the value of this data
item. -/
def value (item : QBarDataItem) : CFloat := item.m_value

/-- Modelled from the spec: the inline accessor `rotation()` of the class header, which is
not among the sources; documented in `qbardataitem.cpp` as returning the rotation angle of
this data item. -/
def rotation (item : QBarDataItem) : CFloat := item.m_angle

/-- The private extra data exists (`d_ptr` is not null). -/
def hasExtraData (item : QBarDataItem) : Bool := item.d_ptr.isSome

/-- The method `createExtraData()`. -/
def createExtraData (item : QBarDataItem) : QBarDataItem :=
  if item.d_ptr.isNone then { item with d_ptr := some {} } else item

/-- Objects of class `QBarDataItem` by address.  `operator=` takes its argument by
reference, so the two objects of an assignment may be one and the same; the statements of
the body are therefore run one after the other on the store. -/
abbrev ItemStore := Nat → QBarDataItem

/-- One statement of a member function of the object at `self`: the object is replaced by
`f` of it, every other object is left as it is. -/
def onThis (self : Nat) (f : QBarDataItem → QBarDataItem) (s : ItemStore) : ItemStore :=
  Function.update s self (f (s self))

/-- The member `operator=(const QBarDataItem &other)` of the object at `self`:
`m_value = other.m_value; m_angle = other.m_angle;` then `createExtraData()` when
`other.d_ptr` is set, `d_ptr = 0` otherwise.  Every read of `other` sees the writes made
before it. -/
def operatorAssign (self other : Nat) (s : ItemStore) : ItemStore :=
  let s := onThis self (fun item => { item with m_value := (s other).m_value }) s
  let s := onThis self (fun item => { item with m_angle := (s other).m_angle }) s
  if (s other).d_ptr.isSome then onThis self createExtraData s
  else onThis self (fun item => { item with d_ptr := none }) s

/-- The copy constructor `QBarDataItem(const QBarDataItem &other)` of the object at `self`:
no member has an initialiser, the body is `operator=(other)`.  What the store holds at
`self` before the call stands for the indeterminate members of the new object. -/
def ctorCopy (self other : Nat) (s : ItemStore) : ItemStore :=
  operatorAssign self other s

end QBarDataItem

/-! ## VariantBarDataMapping -/

/-- The members of `VariantBarDataMapping` (`int` members are only stored and returned),
and the number of times the object has executed `emit mappingChanged()`. -/
structure VariantBarDataMapping where
  m_rowIndex : Int
  m_columnIndex : Int
  m_valueIndex : Int
  m_rowCategories : List String
  m_columnCategories : List String
  mappingChangedEmitted : Nat
  deriving DecidableEq, Repr

namespace VariantBarDataMapping

/-- An argument of type `const QStringList &` of a member function of the mapping object.
The getters `rowCategories()` and `columnCategories()` return references to the members
`m_rowCategories` and `m_columnCategories`, so an argument is a reference to a list outside
the object (given by the value of that list; the member functions do not write it), or a
reference to one of the two list members of the object itself. -/
inductive ListRef where
  | external (list : List String)
  | ownRowCategories
  | ownColumnCategories
  deriving DecidableEq, Repr

/-- The list that a reference denotes while the object is in the state `m`. -/
def ListRef.read (m : VariantBarDataMapping) : ListRef → List String
  | .external list => list
  | .ownRowCategories => m.m_rowCategories
  | .ownColumnCategories => m.m_columnCategories

/-- Constructor `VariantBarDataMapping()`. -/
def ctor : VariantBarDataMapping :=
  { m_rowIndex := 0, m_columnIndex := 1, m_valueIndex := 2,
    m_rowCategories := [], m_columnCategories := [], mappingChangedEmitted := 0 }

/-- Constructor `VariantBarDataMapping(rowIndex, columnIndex, valueIndex, rowCategories,
columnCategories)`: the initialiser list of the default constructor, then five
assignments.  The object does not exist before the call, so the two references are to
lists outside it, given here by their values at the call. -/
def ctorMapping (rowIndex columnIndex valueIndex : Int)
    (rowCategories columnCategories : List String) : VariantBarDataMapping :=
  let m := ctor
  let m := { m with m_rowIndex := rowIndex }
  let m := { m with m_columnIndex := columnIndex }
  let m := { m with m_valueIndex := valueIndex }
  let m := { m with m_rowCategories := rowCategories }
  { m with m_columnCategories := columnCategories }

/-- The member `operator=(other)`: the five members are copied, no signal is emitted.
When `other` is the object itself every assignment writes the value it reads. -/
def operatorAssign (m other : VariantBarDataMapping) : VariantBarDataMapping :=
  let m := { m with m_rowIndex := other.m_rowIndex }
  let m := { m with m_columnIndex := other.m_columnIndex }
  let m := { m with m_valueIndex := other.m_valueIndex }
  let m := { m with m_rowCategories := other.m_rowCategories }
  { m with m_columnCategories := other.m_columnCategories }

/-- Constructor `VariantBarDataMapping(const VariantBarDataMapping &other)`. -/
def ctorCopy (other : VariantBarDataMapping) : VariantBarDataMapping :=
  operatorAssign ctor other

/-- The statement `emit mappingChanged()`. -/
def emitMappingChanged (m : VariantBarDataMapping) : VariantBarDataMapping :=
  { m with mappingChangedEmitted := m.mappingChangedEmitted + 1 }

/-- The setter `setRowIndex(index)`. -/
def setRowIndex (index : Int) (m : VariantBarDataMapping) : VariantBarDataMapping :=
  emitMappingChanged { m with m_rowIndex := index }

/-- The getter `rowIndex()`. -/
def rowIndex (m : VariantBarDataMapping) : Int := m.m_rowIndex

/-- The setter `setColumnIndex(index)`. -/
def setColumnIndex (index : Int) (m : VariantBarDataMapping) : VariantBarDataMapping :=
  emitMappingChanged { m with m_columnIndex := index }

/-- The getter `columnIndex()`. -/
def columnIndex (m : VariantBarDataMapping) : Int := m.m_columnIndex

/-- The setter `setValueIndex(index)`. -/
def setValueIndex (index : Int) (m : VariantBarDataMapping) : VariantBarDataMapping :=
  emitMappingChanged { m with m_valueIndex := index }

/-- The getter `valueIndex()`. -/
def valueIndex (m : VariantBarDataMapping) : Int := m.m_valueIndex

/-- The setter `setRowCategories(const QStringList &categories)`: the reference is read
when the assignment is executed. -/
def setRowCategories (categories : ListRef) (m : VariantBarDataMapping) :
    VariantBarDataMapping :=
  emitMappingChanged { m with m_rowCategories := categories.read m }

/-- The getter `rowCategories()`: the reference `ListRef.ownRowCategories`, here the list
seen through it while the object is in the state `m`. -/
def rowCategories (m : VariantBarDataMapping) : List String :=
  ListRef.read m ListRef.ownRowCategories

/-- The setter `setColumnCategories(const QStringList &categories)`: the reference is read
when the assignment is executed. -/
def setColumnCategories (categories : ListRef) (m : VariantBarDataMapping) :
    VariantBarDataMapping :=
  emitMappingChanged { m with m_columnCategories := categories.read m }

/-- The getter `columnCategories()`: the reference `ListRef.ownColumnCategories`, here the
list seen through it while the object is in the state `m`. -/
def columnCategories (m : VariantBarDataMapping) : List String :=
  ListRef.read m ListRef.ownColumnCategories

/-- The method `remap(rowIndex, columnIndex, valueIndex, rowCategories, columnCategories)`:
five assignments, then one `emit mappingChanged()`.  The two lists are passed by reference:
each assignment reads its reference in the state left by the assignments before it, so
`m_columnCategories = columnCategories` reads the row categories just written when
`columnCategories` refers to `m_rowCategories`. -/
def remap (rowIndex columnIndex valueIndex : Int)
    (rowCategories columnCategories : ListRef) (m : VariantBarDataMapping) :
    VariantBarDataMapping :=
  let m := { m with m_rowIndex := rowIndex }
  let m := { m with m_columnIndex := columnIndex }
  let m := { m with m_valueIndex := valueIndex }
  let m := { m with m_rowCategories := rowCategories.read m }
  let m := { m with m_columnCategories := columnCategories.read m }
  emitMappingChanged m

/-- One call of one of the five setters, with its argument. -/
inductive SetterCall where
  | setRowIndex (index : Int)
  | setColumnIndex (index : Int)
  | setValueIndex (index : Int)
  | setRowCategories (categories : ListRef)
  | setColumnCategories (categories : ListRef)
  deriving DecidableEq, Repr

/-- Execution of one setter call. -/
def SetterCall.run (m : VariantBarDataMapping) : SetterCall → VariantBarDataMapping
  | .setRowIndex index => VariantBarDataMapping.setRowIndex index m
  | .setColumnIndex index => VariantBarDataMapping.setColumnIndex index m
  | .setValueIndex index => VariantBarDataMapping.setValueIndex index m
  | .setRowCategories categories => VariantBarDataMapping.setRowCategories categories m
  | .setColumnCategories categories => VariantBarDataMapping.setColumnCategories categories m

/-- A sequence of setter calls, executed from the first to the last; a reference argument
is read by the call that receives it, in the state left by the calls before it. -/
def runSetters (calls : List SetterCall) (m : VariantBarDataMapping) : VariantBarDataMapping :=
  calls.foldl SetterCall.run m

/-- The mapping of the examples: row categories `["a"]`, column categories `["b"]`. -/
def example1 : VariantBarDataMapping := ctorMapping 0 1 2 ["a"] ["b"]

end VariantBarDataMapping

/-! ## Q3DBars -/

/-- Address of an axis object (`Q3DAbstractAxis` and its subclasses); `0` is the null
pointer.  The classes derive from one another by single inheritance, a `static_cast`
between them keeps the address. -/
abbrev AxisPtr := Nat

/-- Address of a data proxy object (`QAbstractDataProxy`, `QBarDataProxy`); `0` is the null
pointer. -/
abbrev DataProxyPtr := Nat

/-- The members of `Bars3DController` (declared by `Abstract3DController`, whose source is
not part of the file) that `Q3DBars` calls for its axes and data proxies, over any type `C`
of controller states.  The accessors of `Q3DBars` are translated against this interface. -/
structure Abstract3DController (C : Type) where
  setAxisX : AxisPtr → C → C
  axisX : C → AxisPtr
  setAxisY : AxisPtr → C → C
  axisY : C → AxisPtr
  setAxisZ : AxisPtr → C → C
  axisZ : C → AxisPtr
  dataProxies : C → List DataProxyPtr

/-- The member of `Q3DBarsPrivate` that the accessors use: the controller `m_shared`. -/
structure Q3DBarsPrivate (C : Type) where
  m_shared : C

namespace Q3DBars

variable {C : Type}

/-- The conversion `static_cast<Derived *>(base)` along single inheritance. -/
def staticCast (p : Nat) : Nat := p

/-- The method `dataProxies()`: `retList` starts empty, the `foreach` loop visits the list
of the controller from the front and appends the converted pointer. -/
def dataProxies (ctl : Abstract3DController C) (d : Q3DBarsPrivate C) : List DataProxyPtr :=
  let retList : List DataProxyPtr := []
  let abstractList := ctl.dataProxies d.m_shared
  abstractList.foldl (fun retList proxy => retList ++ [staticCast proxy]) retList

end Q3DBars

/-- Modelled from the spec: a controller state for the example of `Q3DBars`: the three axes
in use, the next address for a default axis, and the added proxies.  The documentation of
`setRowAxis` says that a null axis makes the controller create a default axis. -/
structure SlotController where
  m_axisX : AxisPtr
  m_axisY : AxisPtr
  m_axisZ : AxisPtr
  nextDefaultAxis : AxisPtr
  m_dataProxies : List DataProxyPtr
  deriving DecidableEq, Repr

namespace SlotController

/-- Modelled from the spec: the axis that a `setAxisN(axis)` call takes into use, and the
state of the allocator after it: `axis` itself, or a new default axis when `axis` is
null. -/
def resolveAxis (axis : AxisPtr) (c : SlotController) : AxisPtr × SlotController :=
  if axis = 0 then (c.nextDefaultAxis + 1, { c with nextDefaultAxis := c.nextDefaultAxis + 1 })
  else (axis, c)

/-- Modelled from the spec: the interface of the example controller. -/
def api : Abstract3DController SlotController where
  setAxisX := fun axis c => { (resolveAxis axis c).2 with m_axisX := (resolveAxis axis c).1 }
  axisX := fun c => c.m_axisX
  setAxisY := fun axis c => { (resolveAxis axis c).2 with m_axisY := (resolveAxis axis c).1 }
  axisY := fun c => c.m_axisY
  setAxisZ := fun axis c => { (resolveAxis axis c).2 with m_axisZ := (resolveAxis axis c).1 }
  axisZ := fun c => c.m_axisZ
  dataProxies := fun c => c.m_dataProxies

/-- An example state: axes at 10, 20, 30 and three added proxies. -/
def example1 : Q3DBarsPrivate SlotController :=
  { m_shared := { m_axisX := 10, m_axisY := 20, m_axisZ := 30, nextDefaultAxis := 100,
                  m_dataProxies := [7, 8, 9] } }

end SlotController

/-! ## Resolution of the model data -/

/-- Modelled from the spec: an item of the item model as the mapping reads it: its data
under the row role, under the column role and under the value role (the documentation of
the properties `rowRole`, `columnRole` and `valueRole`).  The class of the item model
belongs to the host framework. -/
structure ModelItem where
  rowRole : String
  columnRole : String
  value : CFloat
  deriving DecidableEq, Repr

/-- The resolved data: a list of rows, each a list of cells; a cell holds the items that
the mapping puts there, in the order of the model. -/
abbrev ResolvedArray := List (List (List ModelItem))

namespace SurfaceItemModelHandler

/-- Modelled from the spec: the automatically generated categories (properties
`autoRowCategories`, `autoColumnCategories`, and the class documentation, which relies on
the order in which the role data is first encountered): the role data of the items, each
once, in the order of the first encounter.  The resolving code of `SurfaceItemModelHandler`
is not among the sources. -/
def generateCategories (roles : List String) : List String := roles.eraseDups

/-- Modelled from the spec: the row categories used by a resolution: "When set to true, the
mapping ignores any explicitly set row categories and overwrites them with automatically
generated ones"; otherwise the explicit list `rowCategories`. -/
def rowCategoriesInUse (d : QItemModelSurfaceDataProxyPrivate) (items : List ModelItem) :
    List String :=
  if d.m_autoRowCategories then generateCategories (items.map fun it => it.rowRole)
  else d.m_rowCategories

/-- Modelled from the spec: the column categories used by a resolution, as for the rows. -/
def columnCategoriesInUse (d : QItemModelSurfaceDataProxyPrivate) (items : List ModelItem) :
    List String :=
  if d.m_autoColumnCategories then generateCategories (items.map fun it => it.columnRole)
  else d.m_columnCategories

/-- Modelled from the spec: the resolution of the model data through the role mappings
(`useModelCategories` false), whose code in `SurfaceItemModelHandler` is not among the
sources.  One row for each row category in use, in the order of the list; in a row one cell
for each column category in use, in the order of the list; a cell takes the items whose row
role and column role are the two categories. -/
def resolveByRoles (d : QItemModelSurfaceDataProxyPrivate) (items : List ModelItem) :
    ResolvedArray :=
  (rowCategoriesInUse d items).map fun r =>
    (columnCategoriesInUse d items).map fun c =>
      items.filter fun it => it.rowRole = r ∧ it.columnRole = c

/-- The cell in row `i` and column `j` of resolved data; empty outside the array. -/
def cellAt (a : ResolvedArray) (i j : Nat) : List ModelItem :=
  match a[i]? with
  | none => []
  | some row => (row[j]?).getD []

end SurfaceItemModelHandler

/-! # Theorems -/

namespace QItemModelSurfaceDataProxyPrivate

theorem deliver_sameMapping (arg : SignalArg) (d : QItemModelSurfaceDataProxyPrivate)
    (c : Connection) : SameMapping (deliver arg d c) d := by
  obtain ⟨sender, signal, receiver, method⟩ := c
  cases receiver <;> cases method <;> simp [deliver, SameMapping]

theorem foldl_deliver_sameMapping (arg : SignalArg) (cs : List Connection) :
    ∀ d : QItemModelSurfaceDataProxyPrivate, SameMapping (cs.foldl (deliver arg) d) d := by
  induction cs with
  | nil => intro d; simp [SameMapping]
  | cons c cs ih =>
    intro d
    have h1 := ih (deliver arg d c)
    have h2 := deliver_sameMapping arg d c
    simp only [List.foldl_cons]
    unfold SameMapping at *
    refine ⟨?_, ?_, ?_, ?_, ?_, ?_, ?_, ?_, ?_⟩
    · exact h1.1.trans h2.1
    · exact h1.2.1.trans h2.2.1
    · exact h1.2.2.1.trans h2.2.2.1
    · exact h1.2.2.2.1.trans h2.2.2.2.1
    · exact h1.2.2.2.2.1.trans h2.2.2.2.2.1
    · exact h1.2.2.2.2.2.1.trans h2.2.2.2.2.2.1
    · exact h1.2.2.2.2.2.2.1.trans h2.2.2.2.2.2.2.1
    · exact h1.2.2.2.2.2.2.2.1.trans h2.2.2.2.2.2.2.2.1
    · exact h1.2.2.2.2.2.2.2.2.trans h2.2.2.2.2.2.2.2.2

theorem emitSignal_sameMapping (sender : QObjectId) (signal : Signal) (arg : SignalArg)
    (d : QItemModelSurfaceDataProxyPrivate) : SameMapping (emitSignal sender signal arg d) d := by
  have h := foldl_deliver_sameMapping arg
    (d.connections.filter (fun c => c.sender = sender ∧ c.signal = signal))
    { d with emitted := d.emitted ++ [⟨sender, signal, arg⟩] }
  simpa [emitSignal, SameMapping] using h

/-- With the table of `connectItemModelHandler`, the emission of one of the eight mapping
signals by the proxy appends one `handleMappingChanged` to the handler trace. -/
theorem emitSignal_handlerCalls (signal : Signal) (arg : SignalArg)
    (d : QItemModelSurfaceDataProxyPrivate)
    (hc : d.connections = itemModelHandlerConnections) (hs : signal ≠ Signal.itemModelChanged) :
    (emitSignal QObjectId.proxy signal arg d).handlerCalls
      = d.handlerCalls ++ [HandlerCall.handleMappingChanged] := by
  cases signal <;>
    first
    | exact absurd rfl hs
    | simp [emitSignal, hc, itemModelHandlerConnections, List.filter, deliver]

end QItemModelSurfaceDataProxyPrivate

namespace QItemModelSurfaceDataProxy

open QItemModelSurfaceDataProxyPrivate

theorem setItemModel_connections (m : ItemModelPtr) (d : QItemModelSurfaceDataProxyPrivate) :
    (setItemModel m d).connections = d.connections := rfl

theorem setter_run_connections (s : MappingSetter) (d : QItemModelSurfaceDataProxyPrivate) :
    (s.run d).connections = d.connections := by
  cases s <;> simp only [MappingSetter.run, setRowRole, setColumnRole, setValueRole,
    setRowCategories, setColumnCategories, setUseModelCategories, setAutoRowCategories,
    setAutoColumnCategories] <;> split <;>
    first
    | rfl
    | exact (emitSignal_sameMapping _ _ _ _).2.2.2.2.2.2.2.2

theorem remap_connections (rowRole columnRole valueRole : String)
    (rowCategories columnCategories : List String) (d : QItemModelSurfaceDataProxyPrivate) :
    (remap rowRole columnRole valueRole rowCategories columnCategories d).connections
      = d.connections := by
  have h1 := setter_run_connections (.setRowRole rowRole) d
  have h2 := setter_run_connections (.setColumnRole columnRole) (setRowRole rowRole d)
  have h3 := setter_run_connections (.setValueRole valueRole)
    (setColumnRole columnRole (setRowRole rowRole d))
  have h4 := setter_run_connections (.setRowCategories rowCategories)
    (setValueRole valueRole (setColumnRole columnRole (setRowRole rowRole d)))
  have h5 := setter_run_connections (.setColumnCategories columnCategories)
    (setRowCategories rowCategories
      (setValueRole valueRole (setColumnRole columnRole (setRowRole rowRole d))))
  simp only [MappingSetter.run] at h1 h2 h3 h4 h5
  simp only [remap, h5, h4, h3, h2, h1]

theorem call_run_connections (c : Call) (d : QItemModelSurfaceDataProxyPrivate) :
    (c.run d).connections = d.connections := by
  cases c with
  | setItemModel m => rfl
  | setter s => exact setter_run_connections s d
  | remap r c v rc cc => exact remap_connections r c v rc cc d

/-- Every proxy a program can hold carries the table of `connectItemModelHandler`, once. -/
theorem reachable_connections (d : QItemModelSurfaceDataProxyPrivate) (h : Reachable d) :
    d.connections = itemModelHandlerConnections := by
  induction h with
  | ctor => rfl
  | ctorModel m => rfl
  | ctorModelValue m v => rfl
  | ctorModelRoles m r c v => rfl
  | ctorModelRolesCategories m r c v rc cc => rfl
  | call c d _ ih => rw [call_run_connections, ih]

/-- The mapping members after `setRowRole(v)`: the member of the setter holds `v`, the other
seven are as before. -/
theorem setRowRole_members (v : String) (d : QItemModelSurfaceDataProxyPrivate) :
    (setRowRole v d).m_rowRole = v ∧
    (setRowRole v d).m_columnRole = d.m_columnRole ∧
    (setRowRole v d).m_valueRole = d.m_valueRole ∧
    (setRowRole v d).m_rowCategories = d.m_rowCategories ∧
    (setRowRole v d).m_columnCategories = d.m_columnCategories ∧
    (setRowRole v d).m_useModelCategories = d.m_useModelCategories ∧
    (setRowRole v d).m_autoRowCategories = d.m_autoRowCategories ∧
    (setRowRole v d).m_autoColumnCategories = d.m_autoColumnCategories := by
  unfold setRowRole
  split
  · obtain ⟨h1, h2, h3, h4, h5, h6, h7, h8, _⟩ := emitSignal_sameMapping _ _ _ _
    exact ⟨h1, h2, h3, h4, h5, h6, h7, h8⟩
  · rename_i h
    have h0 : d.m_rowRole = v := by simpa using h
    simp [h0]

/-- The mapping members after `setColumnRole(v)`: the member of the setter holds `v`, the other
seven are as before. -/
theorem setColumnRole_members (v : String) (d : QItemModelSurfaceDataProxyPrivate) :
    (setColumnRole v d).m_rowRole = d.m_rowRole ∧
    (setColumnRole v d).m_columnRole = v ∧
    (setColumnRole v d).m_valueRole = d.m_valueRole ∧
    (setColumnRole v d).m_rowCategories = d.m_rowCategories ∧
    (setColumnRole v d).m_columnCategories = d.m_columnCategories ∧
    (setColumnRole v d).m_useModelCategories = d.m_useModelCategories ∧
    (setColumnRole v d).m_autoRowCategories = d.m_autoRowCategories ∧
    (setColumnRole v d).m_autoColumnCategories = d.m_autoColumnCategories := by
  unfold setColumnRole
  split
  · obtain ⟨h1, h2, h3, h4, h5, h6, h7, h8, _⟩ := emitSignal_sameMapping _ _ _ _
    exact ⟨h1, h2, h3, h4, h5, h6, h7, h8⟩
  · rename_i h
    have h0 : d.m_columnRole = v := by simpa using h
    simp [h0]

/-- The mapping members after `setValueRole(v)`: the member of the setter holds `v`, the other
seven are as before. -/
theorem setValueRole_members (v : String) (d : QItemModelSurfaceDataProxyPrivate) :
    (setValueRole v d).m_rowRole = d.m_rowRole ∧
    (setValueRole v d).m_columnRole = d.m_columnRole ∧
    (setValueRole v d).m_valueRole = v ∧
    (setValueRole v d).m_rowCategories = d.m_rowCategories ∧
    (setValueRole v d).m_columnCategories = d.m_columnCategories ∧
    (setValueRole v d).m_useModelCategories = d.m_useModelCategories ∧
    (setValueRole v d).m_autoRowCategories = d.m_autoRowCategories ∧
    (setValueRole v d).m_autoColumnCategories = d.m_autoColumnCategories := by
  unfold setValueRole
  split
  · obtain ⟨h1, h2, h3, h4, h5, h6, h7, h8, _⟩ := emitSignal_sameMapping _ _ _ _
    exact ⟨h1, h2, h3, h4, h5, h6, h7, h8⟩
  · rename_i h
    have h0 : d.m_valueRole = v := by simpa using h
    simp [h0]

/-- The mapping members after `setRowCategories(v)`: the member of the setter holds `v`, the other
seven are as before. -/
theorem setRowCategories_members (v : List String) (d : QItemModelSurfaceDataProxyPrivate) :
    (setRowCategories v d).m_rowRole = d.m_rowRole ∧
    (setRowCategories v d).m_columnRole = d.m_columnRole ∧
    (setRowCategories v d).m_valueRole = d.m_valueRole ∧
    (setRowCategories v d).m_rowCategories = v ∧
    (setRowCategories v d).m_columnCategories = d.m_columnCategories ∧
    (setRowCategories v d).m_useModelCategories = d.m_useModelCategories ∧
    (setRowCategories v d).m_autoRowCategories = d.m_autoRowCategories ∧
    (setRowCategories v d).m_autoColumnCategories = d.m_autoColumnCategories := by
  unfold setRowCategories
  split
  · obtain ⟨h1, h2, h3, h4, h5, h6, h7, h8, _⟩ := emitSignal_sameMapping _ _ _ _
    exact ⟨h1, h2, h3, h4, h5, h6, h7, h8⟩
  · rename_i h
    have h0 : d.m_rowCategories = v := by simpa using h
    simp [h0]

/-- The mapping members after `setColumnCategories(v)`: the member of the setter holds `v`, the other
seven are as before. -/
theorem setColumnCategories_members (v : List String) (d : QItemModelSurfaceDataProxyPrivate) :
    (setColumnCategories v d).m_rowRole = d.m_rowRole ∧
    (setColumnCategories v d).m_columnRole = d.m_columnRole ∧
    (setColumnCategories v d).m_valueRole = d.m_valueRole ∧
    (setColumnCategories v d).m_rowCategories = d.m_rowCategories ∧
    (setColumnCategories v d).m_columnCategories = v ∧
    (setColumnCategories v d).m_useModelCategories = d.m_useModelCategories ∧
    (setColumnCategories v d).m_autoRowCategories = d.m_autoRowCategories ∧
    (setColumnCategories v d).m_autoColumnCategories = d.m_autoColumnCategories := by
  unfold setColumnCategories
  split
  · obtain ⟨h1, h2, h3, h4, h5, h6, h7, h8, _⟩ := emitSignal_sameMapping _ _ _ _
    exact ⟨h1, h2, h3, h4, h5, h6, h7, h8⟩
  · rename_i h
    have h0 : d.m_columnCategories = v := by simpa using h
    simp [h0]

/-- The mapping members after `setUseModelCategories(v)`: the member of the setter holds `v`, the other
seven are as before. -/
theorem setUseModelCategories_members (v : Bool) (d : QItemModelSurfaceDataProxyPrivate) :
    (setUseModelCategories v d).m_rowRole = d.m_rowRole ∧
    (setUseModelCategories v d).m_columnRole = d.m_columnRole ∧
    (setUseModelCategories v d).m_valueRole = d.m_valueRole ∧
    (setUseModelCategories v d).m_rowCategories = d.m_rowCategories ∧
    (setUseModelCategories v d).m_columnCategories = d.m_columnCategories ∧
    (setUseModelCategories v d).m_useModelCategories = v ∧
    (setUseModelCategories v d).m_autoRowCategories = d.m_autoRowCategories ∧
    (setUseModelCategories v d).m_autoColumnCategories = d.m_autoColumnCategories := by
  unfold setUseModelCategories
  split
  · obtain ⟨h1, h2, h3, h4, h5, h6, h7, h8, _⟩ := emitSignal_sameMapping _ _ _ _
    exact ⟨h1, h2, h3, h4, h5, h6, h7, h8⟩
  · rename_i h
    have h0 : d.m_useModelCategories = v := by simpa using h
    simp [h0]

/-- The mapping members after `setAutoRowCategories(v)`: the member of the setter holds `v`, the other
seven are as before. -/
theorem setAutoRowCategories_members (v : Bool) (d : QItemModelSurfaceDataProxyPrivate) :
    (setAutoRowCategories v d).m_rowRole = d.m_rowRole ∧
    (setAutoRowCategories v d).m_columnRole = d.m_columnRole ∧
    (setAutoRowCategories v d).m_valueRole = d.m_valueRole ∧
    (setAutoRowCategories v d).m_rowCategories = d.m_rowCategories ∧
    (setAutoRowCategories v d).m_columnCategories = d.m_columnCategories ∧
    (setAutoRowCategories v d).m_useModelCategories = d.m_useModelCategories ∧
    (setAutoRowCategories v d).m_autoRowCategories = v ∧
    (setAutoRowCategories v d).m_autoColumnCategories = d.m_autoColumnCategories := by
  unfold setAutoRowCategories
  split
  · obtain ⟨h1, h2, h3, h4, h5, h6, h7, h8, _⟩ := emitSignal_sameMapping _ _ _ _
    exact ⟨h1, h2, h3, h4, h5, h6, h7, h8⟩
  · rename_i h
    have h0 : d.m_autoRowCategories = v := by simpa using h
    simp [h0]

/-- The mapping members after `setAutoColumnCategories(v)`: the member of the setter holds `v`, the other
seven are as before. -/
theorem setAutoColumnCategories_members (v : Bool) (d : QItemModelSurfaceDataProxyPrivate) :
    (setAutoColumnCategories v d).m_rowRole = d.m_rowRole ∧
    (setAutoColumnCategories v d).m_columnRole = d.m_columnRole ∧
    (setAutoColumnCategories v d).m_valueRole = d.m_valueRole ∧
    (setAutoColumnCategories v d).m_rowCategories = d.m_rowCategories ∧
    (setAutoColumnCategories v d).m_columnCategories = d.m_columnCategories ∧
    (setAutoColumnCategories v d).m_useModelCategories = d.m_useModelCategories ∧
    (setAutoColumnCategories v d).m_autoRowCategories = d.m_autoRowCategories ∧
    (setAutoColumnCategories v d).m_autoColumnCategories = v := by
  unfold setAutoColumnCategories
  split
  · obtain ⟨h1, h2, h3, h4, h5, h6, h7, h8, _⟩ := emitSignal_sameMapping _ _ _ _
    exact ⟨h1, h2, h3, h4, h5, h6, h7, h8⟩
  · rename_i h
    have h0 : d.m_autoColumnCategories = v := by simpa using h
    simp [h0]

/-- The count of C1 comes from the connections: on the private object as constructed,
before `connectItemModelHandler`, a changing `setRowRole` reaches no slot. -/
theorem setRowRole_before_connect :
    handleMappingChangedCount (setRowRole "r" create) = 0 ∧
    handleMappingChangedCount (setRowRole "r" (connectItemModelHandler create)) = 1 := by
  decide

/-- C1: on a proxy built by a constructor (each ends with `connectItemModelHandler`) and
then used through its public members, a call of any of the eight mapping setters whose
argument differs from the stored value makes the handler receive `handleMappingChanged`
exactly once: the trace of handler calls grows by that one call, so the count of
`handleMappingChanged` calls grows by one. -/
theorem C1_setter_change_invokes_handleMappingChanged_once
    (d : QItemModelSurfaceDataProxyPrivate) (hd : Reachable d)
    (s : MappingSetter) (hs : s.differs d = true) :
    (s.run d).handlerCalls = d.handlerCalls ++ [HandlerCall.handleMappingChanged] ∧
    handleMappingChangedCount (s.run d) = handleMappingChangedCount d + 1 := by
  have hc := reachable_connections d hd
  have key : (s.run d).handlerCalls = d.handlerCalls ++ [HandlerCall.handleMappingChanged] := by
    cases s <;>
      simp only [MappingSetter.differs, rowRole, columnRole, valueRole, rowCategories,
        columnCategories, useModelCategories, autoRowCategories, autoColumnCategories,
        decide_eq_true_eq] at hs <;>
      simp only [MappingSetter.run, setRowRole, setColumnRole, setValueRole,
        setRowCategories, setColumnCategories, setUseModelCategories, setAutoRowCategories,
        setAutoColumnCategories, hs, if_true, ne_eq, not_false_eq_true] <;>
      exact emitSignal_handlerCalls _ _ _ hc (fun h => Signal.noConfusion h)
  refine ⟨key, ?_⟩
  simp [handleMappingChangedCount, key]

/-- C1 witness: the default constructed proxy, `setRowRole("r")`. -/
theorem C1_setter_change_invokes_handleMappingChanged_once_witness :
    Reachable ctor ∧ (MappingSetter.setRowRole "r").differs ctor = true ∧
    ((MappingSetter.setRowRole "r").run ctor).handlerCalls
      = ctor.handlerCalls ++ [HandlerCall.handleMappingChanged] ∧
    handleMappingChangedCount ((MappingSetter.setRowRole "r").run ctor)
      = handleMappingChangedCount ctor + 1 :=
  ⟨Reachable.ctor, by decide,
    C1_setter_change_invokes_handleMappingChanged_once ctor Reachable.ctor
      (MappingSetter.setRowRole "r") (by decide)⟩

/-- C2: for every proxy state and every value `v`, after the call of one of the eight
mapping setters with `v` the matching getter returns `v` and the other seven getters return
what they returned before the call. -/
theorem C2_setter_then_getters (d : QItemModelSurfaceDataProxyPrivate) :
    (∀ v : String,
      rowRole (setRowRole v d) = v ∧
      columnRole (setRowRole v d) = columnRole d ∧
      valueRole (setRowRole v d) = valueRole d ∧
      rowCategories (setRowRole v d) = rowCategories d ∧
      columnCategories (setRowRole v d) = columnCategories d ∧
      useModelCategories (setRowRole v d) = useModelCategories d ∧
      autoRowCategories (setRowRole v d) = autoRowCategories d ∧
      autoColumnCategories (setRowRole v d) = autoColumnCategories d) ∧
    (∀ v : String,
      rowRole (setColumnRole v d) = rowRole d ∧
      columnRole (setColumnRole v d) = v ∧
      valueRole (setColumnRole v d) = valueRole d ∧
      rowCategories (setColumnRole v d) = rowCategories d ∧
      columnCategories (setColumnRole v d) = columnCategories d ∧
      useModelCategories (setColumnRole v d) = useModelCategories d ∧
      autoRowCategories (setColumnRole v d) = autoRowCategories d ∧
      autoColumnCategories (setColumnRole v d) = autoColumnCategories d) ∧
    (∀ v : String,
      rowRole (setValueRole v d) = rowRole d ∧
      columnRole (setValueRole v d) = columnRole d ∧
      valueRole (setValueRole v d) = v ∧
      rowCategories (setValueRole v d) = rowCategories d ∧
      columnCategories (setValueRole v d) = columnCategories d ∧
      useModelCategories (setValueRole v d) = useModelCategories d ∧
      autoRowCategories (setValueRole v d) = autoRowCategories d ∧
      autoColumnCategories (setValueRole v d) = autoColumnCategories d) ∧
    (∀ v : List String,
      rowRole (setRowCategories v d) = rowRole d ∧
      columnRole (setRowCategories v d) = columnRole d ∧
      valueRole (setRowCategories v d) = valueRole d ∧
      rowCategories (setRowCategories v d) = v ∧
      columnCategories (setRowCategories v d) = columnCategories d ∧
      useModelCategories (setRowCategories v d) = useModelCategories d ∧
      autoRowCategories (setRowCategories v d) = autoRowCategories d ∧
      autoColumnCategories (setRowCategories v d) = autoColumnCategories d) ∧
    (∀ v : List String,
      rowRole (setColumnCategories v d) = rowRole d ∧
      columnRole (setColumnCategories v d) = columnRole d ∧
      valueRole (setColumnCategories v d) = valueRole d ∧
      rowCategories (setColumnCategories v d) = rowCategories d ∧
      columnCategories (setColumnCategories v d) = v ∧
      useModelCategories (setColumnCategories v d) = useModelCategories d ∧
      autoRowCategories (setColumnCategories v d) = autoRowCategories d ∧
      autoColumnCategories (setColumnCategories v d) = autoColumnCategories d) ∧
    (∀ v : Bool,
      rowRole (setUseModelCategories v d) = rowRole d ∧
      columnRole (setUseModelCategories v d) = columnRole d ∧
      valueRole (setUseModelCategories v d) = valueRole d ∧
      rowCategories (setUseModelCategories v d) = rowCategories d ∧
      columnCategories (setUseModelCategories v d) = columnCategories d ∧
      useModelCategories (setUseModelCategories v d) = v ∧
      autoRowCategories (setUseModelCategories v d) = autoRowCategories d ∧
      autoColumnCategories (setUseModelCategories v d) = autoColumnCategories d) ∧
    (∀ v : Bool,
      rowRole (setAutoRowCategories v d) = rowRole d ∧
      columnRole (setAutoRowCategories v d) = columnRole d ∧
      valueRole (setAutoRowCategories v d) = valueRole d ∧
      rowCategories (setAutoRowCategories v d) = rowCategories d ∧
      columnCategories (setAutoRowCategories v d) = columnCategories d ∧
      useModelCategories (setAutoRowCategories v d) = useModelCategories d ∧
      autoRowCategories (setAutoRowCategories v d) = v ∧
      autoColumnCategories (setAutoRowCategories v d) = autoColumnCategories d) ∧
    (∀ v : Bool,
      rowRole (setAutoColumnCategories v d) = rowRole d ∧
      columnRole (setAutoColumnCategories v d) = columnRole d ∧
      valueRole (setAutoColumnCategories v d) = valueRole d ∧
      rowCategories (setAutoColumnCategories v d) = rowCategories d ∧
      columnCategories (setAutoColumnCategories v d) = columnCategories d ∧
      useModelCategories (setAutoColumnCategories v d) = useModelCategories d ∧
      autoRowCategories (setAutoColumnCategories v d) = autoRowCategories d ∧
      autoColumnCategories (setAutoColumnCategories v d) = v) := by
  refine ⟨?_, ?_, ?_, ?_, ?_, ?_, ?_, ?_⟩ <;> intro v
  · exact setRowRole_members v d
  · exact setColumnRole_members v d
  · exact setValueRole_members v d
  · exact setRowCategories_members v d
  · exact setColumnCategories_members v d
  · exact setUseModelCategories_members v d
  · exact setAutoRowCategories_members v d
  · exact setAutoColumnCategories_members v d

/-- C3: the default constructed proxy has `useModelCategories() == false`,
`autoRowCategories() == true`, `autoColumnCategories() == true`, empty row, column and value
roles and empty row and column category lists. -/
theorem C3_default_constructor :
    useModelCategories ctor = false ∧ autoRowCategories ctor = true ∧
    autoColumnCategories ctor = true ∧
    rowRole ctor = "" ∧ columnRole ctor = "" ∧ valueRole ctor = "" ∧
    rowCategories ctor = [] ∧ columnCategories ctor = [] :=
  ⟨rfl, rfl, rfl, rfl, rfl, rfl, rfl, rfl⟩

/-- C4: the constructor taking `(itemModel, valueRole)` gives, for every `valueRole`, a
proxy with `valueRole()` equal to it and `useModelCategories() == true`; the row and column
roles are empty, `autoRowCategories()` and `autoColumnCategories()` are true. -/
theorem C4_constructor_model_valueRole (itemModel : ItemModelPtr) (role : String) :
    valueRole (ctorModelValue itemModel role) = role ∧
    useModelCategories (ctorModelValue itemModel role) = true ∧
    rowRole (ctorModelValue itemModel role) = "" ∧
    columnRole (ctorModelValue itemModel role) = "" ∧
    autoRowCategories (ctorModelValue itemModel role) = true ∧
    autoColumnCategories (ctorModelValue itemModel role) = true :=
  ⟨rfl, rfl, rfl, rfl, rfl, rfl⟩

/-- C5: the constructor taking `(itemModel, rowRole, columnRole, valueRole, rowCategories,
columnCategories)` gives a proxy whose five getters return those five arguments, with
`autoRowCategories()`, `autoColumnCategories()` and `useModelCategories()` all false. -/
theorem C5_constructor_model_roles_categories (itemModel : ItemModelPtr)
    (r c v : String) (rc cc : List String) :
    rowRole (ctorModelRolesCategories itemModel r c v rc cc) = r ∧
    columnRole (ctorModelRolesCategories itemModel r c v rc cc) = c ∧
    valueRole (ctorModelRolesCategories itemModel r c v rc cc) = v ∧
    rowCategories (ctorModelRolesCategories itemModel r c v rc cc) = rc ∧
    columnCategories (ctorModelRolesCategories itemModel r c v rc cc) = cc ∧
    autoRowCategories (ctorModelRolesCategories itemModel r c v rc cc) = false ∧
    autoColumnCategories (ctorModelRolesCategories itemModel r c v rc cc) = false ∧
    useModelCategories (ctorModelRolesCategories itemModel r c v rc cc) = false :=
  ⟨rfl, rfl, rfl, rfl, rfl, rfl, rfl, rfl⟩

/-- C6: the constructor taking `(itemModel, rowRole, columnRole, valueRole)` sets the three
role mappings to its arguments and leaves the other mapping properties at their defaults:
empty row and column categories, `useModelCategories` false, `autoRowCategories` and
`autoColumnCategories` true. -/
theorem C6_constructor_model_roles (itemModel : ItemModelPtr) (r c v : String) :
    rowRole (ctorModelRoles itemModel r c v) = r ∧
    columnRole (ctorModelRoles itemModel r c v) = c ∧
    valueRole (ctorModelRoles itemModel r c v) = v ∧
    rowCategories (ctorModelRoles itemModel r c v) = [] ∧
    columnCategories (ctorModelRoles itemModel r c v) = [] ∧
    useModelCategories (ctorModelRoles itemModel r c v) = false ∧
    autoRowCategories (ctorModelRoles itemModel r c v) = true ∧
    autoColumnCategories (ctorModelRoles itemModel r c v) = true :=
  ⟨rfl, rfl, rfl, rfl, rfl, rfl, rfl, rfl⟩

/-- C7: for every prior state, after `remap(rowRole, columnRole, valueRole, rowCategories,
columnCategories)` the getters `rowRole()`, `columnRole()`, `valueRole()`,
`rowCategories()` and `columnCategories()` return the five arguments, and
`useModelCategories()`, `autoRowCategories()` and `autoColumnCategories()` return what they
returned before. -/
theorem C7_remap_getters (r c v : String) (rc cc : List String)
    (d : QItemModelSurfaceDataProxyPrivate) :
    rowRole (remap r c v rc cc d) = r ∧
    columnRole (remap r c v rc cc d) = c ∧
    valueRole (remap r c v rc cc d) = v ∧
    rowCategories (remap r c v rc cc d) = rc ∧
    columnCategories (remap r c v rc cc d) = cc ∧
    useModelCategories (remap r c v rc cc d) = useModelCategories d ∧
    autoRowCategories (remap r c v rc cc d) = autoRowCategories d ∧
    autoColumnCategories (remap r c v rc cc d) = autoColumnCategories d := by
  obtain ⟨a1, a2, a3, a4, a5, a6, a7, a8⟩ := setRowRole_members r d
  obtain ⟨b1, b2, b3, b4, b5, b6, b7, b8⟩ := setColumnRole_members c (setRowRole r d)
  obtain ⟨c1, c2, c3, c4, c5, c6, c7, c8⟩ :=
    setValueRole_members v (setColumnRole c (setRowRole r d))
  obtain ⟨d1, d2, d3, d4, d5, d6, d7, d8⟩ :=
    setRowCategories_members rc (setValueRole v (setColumnRole c (setRowRole r d)))
  obtain ⟨e1, e2, e3, e4, e5, e6, e7, e8⟩ :=
    setColumnCategories_members cc
      (setRowCategories rc (setValueRole v (setColumnRole c (setRowRole r d))))
  simp only [remap, rowRole, columnRole, valueRole, rowCategories, columnCategories,
    useModelCategories, autoRowCategories, autoColumnCategories]
  refine ⟨?_, ?_, ?_, ?_, ?_, ?_, ?_, ?_⟩
  · rw [e1, d1, c1, b1, a1]
  · rw [e2, d2, c2, b2]
  · rw [e3, d3, c3]
  · rw [e4, d4]
  · rw [e5]
  · rw [e6, d6, c6, b6, a6]
  · rw [e7, d7, c7, b7, a7]
  · rw [e8, d8, c8, b8, a8]

/-- C8: if the row categories list is empty, `rowCategoryIndex` returns `-1`, for every
category string. -/
theorem C8_rowCategoryIndex_empty (d : QItemModelSurfaceDataProxyPrivate)
    (h : rowCategories d = []) (category : String) :
    rowCategoryIndex category d = -1 := by
  simp only [rowCategories] at h
  simp [rowCategoryIndex, h, QStringList.indexOf, QStringList.indexOfLoop]

/-- C8 witness: the default constructed proxy and the category `"2001"`. -/
theorem C8_rowCategoryIndex_empty_witness :
    rowCategories ctor = [] ∧ rowCategoryIndex "2001" ctor = -1 :=
  ⟨rfl, C8_rowCategoryIndex_empty ctor rfl "2001"⟩

end QItemModelSurfaceDataProxy

namespace QStringList

/-- The loop started at position `i` either reaches the end (`t` is not in the list, the
result is `-1`) or stops at the first `k` with `l[k] = t` and returns `i + k`. -/
theorem indexOfLoop_spec (t : String) : ∀ (l : List String) (i : Int),
    (t ∉ l ∧ indexOfLoop t l i = -1) ∨
    (∃ k : Nat, k < l.length ∧ indexOfLoop t l i = i + (k : Int) ∧ l[k]? = some t ∧
      ∀ j : Nat, j < k → l[j]? ≠ some t)
  | [], i => Or.inl ⟨by simp, rfl⟩
  | x :: xs, i => by
    by_cases h : x = t
    · refine Or.inr ⟨0, by simp, by simp [indexOfLoop, h], by simp [h], ?_⟩
      intro j hj
      omega
    · rcases indexOfLoop_spec t xs (i + 1) with ⟨hn, he⟩ | ⟨k, hk, he, hg, hm⟩
      · refine Or.inl ⟨?_, by simp [indexOfLoop, h, he]⟩
        simp only [List.mem_cons, not_or]
        exact ⟨fun e => h e.symm, hn⟩
      · refine Or.inr ⟨k + 1, by simp only [List.length_cons]; omega, ?_, by simpa using hg, ?_⟩
        · simp only [indexOfLoop, h, if_false, he]
          push_cast
          ring
        · intro j hj
          cases j with
          | zero => simpa using h
          | succ j => simpa using hm j (by omega)

/-- The result of `indexOf`: `-1` exactly when `t` is not in the list, otherwise the first
position that holds `t`. -/
theorem indexOf_spec (l : List String) (t : String) :
    (t ∉ l ∧ indexOf l t = -1) ∨
    (∃ k : Nat, k < l.length ∧ indexOf l t = (k : Int) ∧ l[k]? = some t ∧
      ∀ j : Nat, j < k → l[j]? ≠ some t) := by
  rcases indexOfLoop_spec t l 0 with h | ⟨k, hk, he, hg, hm⟩
  · exact Or.inl h
  · exact Or.inr ⟨k, hk, by simpa [indexOf] using he, hg, hm⟩

end QStringList

namespace QItemModelSurfaceDataProxy

/-- C9: `columnCategoryIndex(category)` returns the index of the category in the column
categories list: when the category is in the list the result is a position `i` with
`0 <= i < length`, `columnCategories()[i] == category` and no smaller position holding the
category; when the category is not in the list the result is `-1`; and the result is `-1`
only when the category is not in the list. -/
theorem C9_columnCategoryIndex (category : String) (d : QItemModelSurfaceDataProxyPrivate) :
    (category ∈ columnCategories d →
      ∃ i : Nat, columnCategoryIndex category d = (i : Int) ∧
        0 ≤ columnCategoryIndex category d ∧
        columnCategoryIndex category d < ((columnCategories d).length : Int) ∧
        (columnCategories d)[i]? = some category ∧
        ∀ j : Nat, j < i → (columnCategories d)[j]? ≠ some category) ∧
    (category ∉ columnCategories d → columnCategoryIndex category d = -1) ∧
    (columnCategoryIndex category d = -1 → category ∉ columnCategories d) := by
  simp only [columnCategories, columnCategoryIndex]
  rcases QStringList.indexOf_spec d.m_columnCategories category with
    ⟨hn, he⟩ | ⟨k, hk, he, hg, hm⟩
  · exact ⟨fun hin => absurd hin hn, fun _ => he, fun _ => hn⟩
  · have hin : category ∈ d.m_columnCategories := by
      have := List.getElem?_eq_some_iff.mp hg
      obtain ⟨hlt, heq⟩ := this
      exact heq ▸ List.getElem_mem hlt
    refine ⟨fun _ => ⟨k, he, ?_, ?_, hg, hm⟩, fun hn => absurd hin hn, fun h1 => ?_⟩
    · rw [he]; exact Int.natCast_nonneg k
    · rw [he]; exact_mod_cast hk
    · rw [he] at h1
      have := Int.natCast_nonneg k
      omega

/-- C9 witness: with column categories `["a", "b", "a", "b"]`, the category `"b"` has index
`1` and the category `"c"` has index `-1`. -/
theorem C9_columnCategoryIndex_witness :
    columnCategoryIndex "b" (setColumnCategories ["a", "b", "a", "b"] ctor) = 1 ∧
    columnCategoryIndex "c" (setColumnCategories ["a", "b", "a", "b"] ctor) = -1 ∧
    "c" ∉ columnCategories (setColumnCategories ["a", "b", "a", "b"] ctor) :=
  ⟨by decide, by decide,
    (C9_columnCategoryIndex "c" (setColumnCategories ["a", "b", "a", "b"] ctor)).2.2
      (by decide)⟩

end QItemModelSurfaceDataProxy

namespace QBarDataItem

/-- C10: the default constructor gives `value() == 0` and `rotation() == 0`;
`QBarDataItem(value)` gives `value() == value` and `rotation() == 0`;
`QBarDataItem(value, angle)` gives `value() == value` and `rotation() == angle`; none of the
three creates the private extra data (`d_ptr` is null).  Equality is identity of the stored
float. -/
theorem C10_constructors :
    (value ctor = CFloat.zero ∧ rotation ctor = CFloat.zero ∧ ctor.d_ptr = none) ∧
    (∀ v : CFloat, value (ctorValue v) = v ∧ rotation (ctorValue v) = CFloat.zero ∧
      (ctorValue v).d_ptr = none) ∧
    (∀ v a : CFloat, value (ctorValueAngle v a) = v ∧ rotation (ctorValueAngle v a) = a ∧
      (ctorValueAngle v a).d_ptr = none) :=
  ⟨⟨rfl, rfl, rfl⟩, fun _ => ⟨rfl, rfl, rfl⟩, fun _ _ => ⟨rfl, rfl, rfl⟩⟩

end QBarDataItem

namespace QBarDataItem

/-- After `operator=` the object at `self` holds the value and the angle that the object
at `other` held before, and the object at `other` is as it was (also when both are one
object). -/
theorem operatorAssign_spec (self other : Nat) (s : ItemStore) :
    (operatorAssign self other s self).m_value = (s other).m_value ∧
    (operatorAssign self other s self).m_angle = (s other).m_angle ∧
    operatorAssign self other s other = s other := by
  by_cases h : other = self
  · subst h
    cases hd : (s other).d_ptr <;>
      simp [operatorAssign, onThis, createExtraData, hd]
    all_goals
      cases hs : s other
      simp_all
  · cases hd : (s other).d_ptr <;>
      simp [operatorAssign, onThis, createExtraData, hd, h, Function.update]
    split <;> simp

/-- C11: for every item `other`, the copy constructor and `operator=` give an item whose
`value()` and `rotation()` are those of `other`; `operator=` leaves `other` unchanged; an
item assigned to itself keeps its value and rotation.  Items are objects of a store, so
that `other` may be the assigned object itself. -/
theorem C11_copy_and_assignment (self other : Nat) (s : ItemStore) :
    (value (ctorCopy self other s self) = value (s other) ∧
      rotation (ctorCopy self other s self) = rotation (s other)) ∧
    (value (operatorAssign self other s self) = value (s other) ∧
      rotation (operatorAssign self other s self) = rotation (s other)) ∧
    operatorAssign self other s other = s other ∧
    (value (operatorAssign self self s self) = value (s self) ∧
      rotation (operatorAssign self self s self) = rotation (s self)) := by
  obtain ⟨h1, h2, h3⟩ := operatorAssign_spec self other s
  obtain ⟨k1, k2, _⟩ := operatorAssign_spec self self s
  exact ⟨⟨h1, h2⟩, ⟨h1, h2⟩, h3, ⟨k1, k2⟩⟩

end QBarDataItem

namespace VariantBarDataMapping

/-- The row categories after `remap` are the list that the argument `rowCategories`
denoted at the call; the column categories are the list that `columnCategories` denotes
after the row categories have been written. -/
theorem remap_categories (r c v : Int) (A B : ListRef) (m : VariantBarDataMapping) :
    rowCategories (remap r c v A B m) = A.read m ∧
    columnCategories (remap r c v A B m)
      = (if B = ListRef.ownRowCategories then A.read m else B.read m) := by
  cases A <;> cases B <;>
    simp [remap, emitMappingChanged, rowCategories, columnCategories, ListRef.read]

/-- The column categories after `remap` are the list passed as `columnCategories` exactly
when `columnCategories` is not a reference to the row categories of the object, or
`rowCategories` holds the value of those row categories. -/
theorem remap_columnCategories_iff (r c v : Int) (A B : ListRef) (m : VariantBarDataMapping) :
    columnCategories (remap r c v A B m) = B.read m ↔
      (B = ListRef.ownRowCategories → A.read m = m.m_rowCategories) := by
  rw [(remap_categories r c v A B m).2]
  cases B <;> simp [ListRef.read]

/-- When `remap` and the five setters with `setColumnCategories` called before
`setRowCategories` end with the same category lists, the two list arguments hold equal
lists in the two crossed cases (`rowCategories` refers to the column categories of the
object, or `columnCategories` to its row categories). -/
theorem remap_eq_setters_only_if (r c v : Int) (A B : ListRef) (m : VariantBarDataMapping)
    (hrow : rowCategories (remap r c v A B m)
      = rowCategories (runSetters [SetterCall.setColumnCategories B,
          SetterCall.setRowCategories A, SetterCall.setRowIndex r,
          SetterCall.setColumnIndex c, SetterCall.setValueIndex v] m))
    (hcol : columnCategories (remap r c v A B m)
      = columnCategories (runSetters [SetterCall.setColumnCategories B,
          SetterCall.setRowCategories A, SetterCall.setRowIndex r,
          SetterCall.setColumnIndex c, SetterCall.setValueIndex v] m)) :
    (A = ListRef.ownColumnCategories ∨ B = ListRef.ownRowCategories) →
      A.read m = B.read m := by
  cases A <;> cases B <;>
    simp_all [remap, runSetters, SetterCall.run, setRowIndex, setColumnIndex, setValueIndex,
      setRowCategories, setColumnCategories, emitMappingChanged, rowCategories,
      columnCategories, ListRef.read]

end VariantBarDataMapping

namespace Q3DBars

variable {C : Type}

/-- The loop that appends `f x` for every `x` of a list builds `init ++ l.map f`. -/
theorem foldl_append_singleton (f : Nat → Nat) (l : List Nat) :
    ∀ init : List Nat, l.foldl (fun acc x => acc ++ [f x]) init = init ++ l.map f := by
  induction l with
  | nil => intro init; simp
  | cons x xs ih => intro init; simp [ih]

/-- The method `dataProxies()` returns the list of the controller. -/
theorem dataProxies_eq (ctl : Abstract3DController C) (d : Q3DBarsPrivate C) :
    dataProxies ctl d = ctl.dataProxies d.m_shared := by
  simp only [dataProxies]
  rw [foldl_append_singleton staticCast]
  have h : (staticCast : Nat → Nat) = id := rfl
  simp [h]

/-- C13: `dataProxies()` returns the list of all added data proxies: for every proxy list
`L` of the controller the result has the length of `L` and its `i`-th element is the `i`-th
element of `L`, for every `i`; so no proxy is dropped, duplicated or moved. -/
theorem C13_dataProxies (ctl : Abstract3DController C) (d : Q3DBarsPrivate C) :
    (dataProxies ctl d).length = (ctl.dataProxies d.m_shared).length ∧
    ∀ i : Nat, (dataProxies ctl d)[i]? = (ctl.dataProxies d.m_shared)[i]? := by
  rw [dataProxies_eq]
  exact ⟨rfl, fun _ => rfl⟩

/-- C13 witness: the example with the added proxies 7, 8 and 9. -/
theorem C13_dataProxies_witness :
    dataProxies SlotController.api SlotController.example1 = [7, 8, 9] ∧
    (dataProxies SlotController.api SlotController.example1).length = 3 :=
  ⟨by decide, (C13_dataProxies SlotController.api SlotController.example1).1⟩

end Q3DBars

namespace SlotController

end SlotController

namespace Q3DBars

end Q3DBars

namespace SurfaceItemModelHandler

open QItemModelSurfaceDataProxy

/-- The items of the cell `(i, j)`: the items of the model whose row role is the `i`-th row
category in use and whose column role is the `j`-th column category in use. -/
theorem mem_cellAt_resolveByRoles (d : QItemModelSurfaceDataProxyPrivate)
    (items : List ModelItem) (i j : Nat) (it : ModelItem) :
    it ∈ cellAt (resolveByRoles d items) i j ↔
      it ∈ items ∧ (rowCategoriesInUse d items)[i]? = some it.rowRole ∧
        (columnCategoriesInUse d items)[j]? = some it.columnRole := by
  simp only [cellAt, resolveByRoles, List.getElem?_map]
  cases hr : (rowCategoriesInUse d items)[i]? with
  | none => simp
  | some r =>
    simp only [Option.map_some', List.getElem?_map]
    cases hc : (columnCategoriesInUse d items)[j]? with
    | none => simp
    | some c =>
      simp only [Option.map_some', Option.getD_some, List.mem_filter, decide_eq_true_eq,
        Option.some.injEq]
      constructor
      · rintro ⟨h1, h2, h3⟩
        exact ⟨h1, h2.symm, h3.symm⟩
      · rintro ⟨h1, h2, h3⟩
        exact ⟨h1, h2.symm, h3.symm⟩

/-- C15: when the model data is resolved with explicit row categories
(`autoRowCategories` false), the resolved data has one row for each entry of
`rowCategories`, in the order of the list, and an item is included only if its row role is
found in the list: an item included in row `i` is an item of the model whose row role is
the `i`-th row category.  The same holds for the columns and `columnCategories`. -/
theorem C15_resolve_with_explicit_categories (d : QItemModelSurfaceDataProxyPrivate)
    (items : List ModelItem) :
    (autoRowCategories d = false →
      (resolveByRoles d items).length = (rowCategories d).length ∧
      ∀ (i j : Nat) (it : ModelItem), it ∈ cellAt (resolveByRoles d items) i j →
        it ∈ items ∧ it.rowRole ∈ rowCategories d ∧
          (rowCategories d)[i]? = some it.rowRole) ∧
    (autoColumnCategories d = false →
      (∀ row ∈ resolveByRoles d items, row.length = (columnCategories d).length) ∧
      ∀ (i j : Nat) (it : ModelItem), it ∈ cellAt (resolveByRoles d items) i j →
        it ∈ items ∧ it.columnRole ∈ columnCategories d ∧
          (columnCategories d)[j]? = some it.columnRole) := by
  constructor
  · intro h
    have hr : rowCategoriesInUse d items = d.m_rowCategories := by
      simp only [autoRowCategories] at h
      simp [rowCategoriesInUse, h]
    refine ⟨by simp [resolveByRoles, hr, rowCategories], ?_⟩
    intro i j it hit
    obtain ⟨h1, h2, _⟩ := (mem_cellAt_resolveByRoles d items i j it).mp hit
    rw [hr] at h2
    exact ⟨h1, List.getElem?_mem h2, h2⟩
  · intro h
    have hc : columnCategoriesInUse d items = d.m_columnCategories := by
      simp only [autoColumnCategories] at h
      simp [columnCategoriesInUse, h]
    refine ⟨?_, ?_⟩
    · intro row hrow
      simp only [resolveByRoles, List.mem_map] at hrow
      obtain ⟨r, _, rfl⟩ := hrow
      simp [hc, columnCategories]
    · intro i j it hit
      obtain ⟨h1, _, h3⟩ := (mem_cellAt_resolveByRoles d items i j it).mp hit
      rw [hc] at h3
      exact ⟨h1, List.getElem?_mem h3, h3⟩

/-- C15 witness: row categories `["b", "a"]`, column categories `["x"]`, and a model whose
items have the row roles `"a"`, `"b"` and `"c"`: the row of `"b"` comes first, the item of
`"c"` is in no cell. -/
theorem C15_resolve_with_explicit_categories_witness :
    resolveByRoles (ctorModelRolesCategories 1 "row" "col" "val" ["b", "a"] ["x"])
        [⟨"a", "x", ⟨1⟩⟩, ⟨"b", "x", ⟨2⟩⟩, ⟨"c", "x", ⟨3⟩⟩]
      = [[[⟨"b", "x", ⟨2⟩⟩]], [[⟨"a", "x", ⟨1⟩⟩]]] ∧
    (resolveByRoles (ctorModelRolesCategories 1 "row" "col" "val" ["b", "a"] ["x"])
        [⟨"a", "x", ⟨1⟩⟩, ⟨"b", "x", ⟨2⟩⟩, ⟨"c", "x", ⟨3⟩⟩]).length = 2 :=
  ⟨by decide,
    ((C15_resolve_with_explicit_categories
      (ctorModelRolesCategories 1 "row" "col" "val" ["b", "a"] ["x"])
      [⟨"a", "x", ⟨1⟩⟩, ⟨"b", "x", ⟨2⟩⟩, ⟨"c", "x", ⟨3⟩⟩]).1 rfl).1⟩

end SurfaceItemModelHandler

end QtDataVis
